import Mathlib

/-
  Shallow embedding of src/RepetierServerOutputDevice.py
  (class RepetierServerOutputDevice, a Cura output-device plugin that talks
  to a Repetier-Server instance over HTTP).

  Modelling conventions:
  * wall-clock time is modelled as a rational number of seconds; the Python
    float timestamps returned by time() are passed around abstractly, only
    compared and subtracted, so ℚ is a faithful carrier;
  * the mutable object state is a DeviceState record; every method becomes a
    pure function DeviceState → ... → DeviceState × Effects, where Effects
    records the externally visible side actions of that one invocation
    (requests issued, messages shown, manager recreation, aborts);
  * Python truthiness of the optional timestamp / optional pre-timeout state
    fields is modelled as Option.isSome (the timestamps are time() values,
    never 0.0);
  * the Qt network manager, timers and GUI messages are external
    collaborators; only the state the source reads back from them is kept
    (running flags, current progress value of the progress message);
  * JSON bodies arrive already parsed into the shapes the handlers read
    (the handlers index into the parsed JSON directly; a shape mismatch at
    those reads raises in Python and is recorded here as the raisedExc
    effect with no further actions from that handler).
-/

namespace RepetierSrv

/-- Connection states of the cura PrinterOutputDevice base class that the
plugin uses. -/
inductive ConnectionState where
  | closed
  | connecting
  | connected
  | error
deriving DecidableEq

/-- Progress-message indicator: the Sending data message created by
startPrint, or the Storing data message that replaces it at 100 percent. -/
inductive Indicator where
  | sending
  | storing
deriving DecidableEq

/-- State of the upload progress Message object: which text it shows, its
current progress value (created with -1), and whether it is visible. -/
structure ProgressMsg where
  indicator : Indicator
  progressVal : ℚ
  visible : Bool
deriving DecidableEq

/-- One record of the parsed listPrinter JSON array:
fields slug, job, paused (the strings "true" / "false") and done. -/
structure PrinterRecord where
  slug : String
  job : String
  paused : String
  done : ℚ
deriving DecidableEq

/-- Mutable state of a RepetierServerOutputDevice object, as read and
written by the methods the claims are about.  Field names follow the
underscore attributes of the source.  The URL fields are the strings built
once in the constructor. -/
structure DeviceState where
  connection_state : ConnectionState
  connection_state_before_timeout : Option ConnectionState
  last_response_time : Option ℚ
  last_request_time : Option ℚ
  response_timeout_time : ℚ
  recreate_network_manager_time : ℚ
  recreate_network_manager_count : ℕ
  job_state : String
  job_name : String
  progressPct : ℚ
  accepts_commands : Bool
  update_timer_running : Bool
  camera_timer_running : Bool
  post_reply_active : Bool
  progress_msg : Option ProgressMsg
  error_msg_shown : Bool
  auto_print : Bool
  gcode : Option (List String)
  slug : String
  api_url : String
  model_url : String
  camera_url : String
  camera_image_empty : Bool
deriving DecidableEq

/-- Externally visible actions of one method invocation: GET and POST
requests issued (by URL, in order), messages shown, network-manager
recreation, upload abort, progress-message hiding, an exception escaping
the handler, and published values. -/
structure Effects where
  issuedGets : List String
  issuedPosts : List String
  enteredErrorMsg : Bool
  networkLostMsg : Bool
  savedMsg : Bool
  jobBusyMsg : Bool
  recreatedManager : Bool
  abortedPost : Bool
  progressHidden : Bool
  uploadDisconnected : Bool
  raisedExc : Bool
  imageLoaded : Bool
  publishedHotend : Option ℚ
  publishedBed : Option ℚ
deriving DecidableEq

/-- Empty effect record: the invocation did nothing externally visible. -/
def noEff : Effects :=
  ⟨[], [], false, false, false, false, false, false, false, false, false,
   false, none, none⟩

/-- Constructor: the object state right after RepetierServerOutputDevice
init (plus the base-class defaults it inherits: state closed, job state
empty, no commands accepted).  The slug is the hardcoded "fanera1". -/
def initDevice (address : String) (port : ℕ) (path : String) : DeviceState :=
  let base_url := "http://" ++ address ++ ":" ++ toString port ++ path
  { connection_state := ConnectionState.closed
    connection_state_before_timeout := none
    last_response_time := none
    last_request_time := none
    response_timeout_time := 5
    recreate_network_manager_time := 30
    recreate_network_manager_count := 1
    job_state := ""
    job_name := ""
    progressPct := 0
    accepts_commands := false
    update_timer_running := false
    camera_timer_running := false
    post_reply_active := false
    progress_msg := none
    error_msg_shown := false
    auto_print := true
    gcode := none
    slug := "fanera1"
    api_url := base_url ++ "printer/api/" ++ "fanera1"
    model_url := base_url ++ "printer/model/" ++ "fanera1" ++ "?a=upload"
    camera_url := "http://" ++ address ++ ":8080/?action=snapshot"
    camera_image_empty := true }

/-- Substring test, the Python operator pat in s used by the response
router. -/
def strContains (s pat : String) : Bool :=
  decide (pat.data <:+: s.data)

/-- The while loop of the manager-recreation branch of update: starting
from count c, keep incrementing while d - w * count > w.  The source runs
it only with w = 30 (and the guard on w makes the function total; with a
nonpositive w the Python loop would not terminate). -/
def skipCount (w d : ℚ) (c : ℕ) : ℕ :=
  if h : 0 < w ∧ w < d - w * c then skipCount w d (c + 1) else c
termination_by (⌈d / w⌉).toNat - c
decreasing_by
  obtain ⟨hw, hlt⟩ := h
  have h1 : ((c : ℚ) + 1) < d / w := by
    rw [lt_div_iff₀ hw]; nlinarith
  have h2 : ((c : ℤ) + 1) < ⌈d / w⌉ := by
    rw [Int.lt_ceil]; push_cast; exact h1
  omega

/-- Hide a progress message if one exists (Message.hide). -/
def hideMsg : Option ProgressMsg → Option ProgressMsg
  | some pm => some { pm with visible := false }
  | none => none

/-- The two periodic poll requests issued at the end of a normal update
tick: stateList then listPrinter. -/
def pollUrls (s : DeviceState) : List String :=
  [s.api_url ++ "?a=stateList", s.api_url ++ "?a=listPrinter"]

/-- Whether the elapsed time since the last request is within the window;
with no last request recorded the source uses float infinity, so the
comparison is false. -/
def reqWithinWindow (lq : Option ℚ) (now w : ℚ) : Bool :=
  match lq with
  | some t => decide (now - t ≤ w)
  | none => false

/-- The update poll tick.  Follows the source order exactly: recreate
check, network-accessibility check, timeout-entry check, then the two poll
requests.  networkAccessible is the value the Qt manager reports. -/
def update (s : DeviceState) (now : ℚ) (networkAccessible : Bool) :
    DeviceState × Effects :=
  let timeSinceResponse : ℚ :=
    match s.last_response_time with
    | some t => now - t
    | none => 0
  -- Connection in timeout: recreate the network manager after every
  -- further recreate_network_manager_time seconds of silence.
  if s.last_response_time.isSome = true ∧
      s.connection_state_before_timeout.isSome = true ∧
      timeSinceResponse >
        s.recreate_network_manager_time * s.recreate_network_manager_count then
    let newCount := skipCount s.recreate_network_manager_time
      timeSinceResponse (s.recreate_network_manager_count + 1)
    ({ s with recreate_network_manager_count := newCount },
     { noEff with recreatedManager := true })
  else if networkAccessible = false then
    -- No network at all: enter timeout mode once, abort a running upload.
    if s.connection_state_before_timeout = none then
      let s1 := { s with
        connection_state_before_timeout := some s.connection_state,
        connection_state := ConnectionState.error }
      if s1.post_reply_active = true then
        ({ s1 with post_reply_active := false,
                   progress_msg := hideMsg s1.progress_msg },
         { noEff with networkLostMsg := true, abortedPost := true,
                      progressHidden := true })
      else
        (s1, { noEff with networkLostMsg := true })
    else
      (s, noEff)
  else
    -- Network reported accessible: outside a timeout reset the recreate
    -- counter.
    let s1 := if s.connection_state_before_timeout = none
      then { s with recreate_network_manager_count := 1 } else s
    -- Timeout entry: response overdue while a request is still fresh.
    if s1.last_response_time.isSome = true ∧
        s1.last_request_time.isSome = true ∧
        s1.connection_state_before_timeout = none ∧
        timeSinceResponse > s1.response_timeout_time ∧
        reqWithinWindow s1.last_request_time now s1.response_timeout_time
          = true then
      ({ s1 with
          connection_state_before_timeout := some s1.connection_state,
          connection_state := ConnectionState.error },
       { noEff with enteredErrorMsg := true, issuedGets := pollUrls s1 })
    else
      (s1, { noEff with issuedGets := pollUrls s1 })

/-- Transport-level outcome of a finished QNetworkReply: no error, the
specific timeout error the handler tests first, or any other error code. -/
inductive ReplyErr where
  | noError
  | timeoutError
  | otherError
deriving DecidableEq

/-- HTTP operation of a finished reply, as reported by
QNetworkAccessManager. -/
inductive NetOp where
  | getOp
  | postOp
  | otherOp
deriving DecidableEq

/-- Parsed JSON body of a finished reply, in the shapes the handlers index
into: the stateList object (extruder 0 and heated-bed tempRead under the
slug key), the listPrinter array, the data list of model ids of the upload
response, or anything else. -/
inductive ReplyBody where
  | stateListData (extruderTemp bedTemp : ℚ)
  | printerList (recs : List PrinterRecord)
  | modelData (ids : List Int)
  | rawData
deriving DecidableEq

/-- A finished network reply as seen by the handler: transport error code,
HTTP status attribute (none when the reply was empty), operation, URL and
parsed body.  hasLocation tells whether a Location header was present. -/
structure Reply where
  err : ReplyErr
  httpStatus : Option ℕ
  op : NetOp
  url : String
  body : ReplyBody
  hasLocation : Bool
deriving DecidableEq

/-- Job-state derivation of the listPrinter handler for one record of the
response array, mirroring the loop body: records whose slug differs are
skipped; a matching record sets the job name and then derives the job
state from paused and job (the initial "offline" value is dead because
the job string always equals "none" or differs from it). -/
def processPrinterRecord (s : DeviceState) (p : PrinterRecord) : DeviceState :=
  if p.slug = s.slug then
    let s1 := { s with job_name := p.job }
    if p.paused = "true" then
      { s1 with job_state := "paused" }
    else if p.job ≠ "none" then
      { s1 with job_state := "printing", progressPct := p.done }
    else if p.job = "none" then
      { s1 with job_state := "ready" }
    else
      { s1 with job_state := "offline" }
  else s

/-- URL-substring dispatch of onRequestFinished, applied to the state
after the liveness bookkeeping and to the HTTP status code (already known
nonzero).  Factored out of the handler so its branches can be reasoned
about one at a time; the branch order is exactly the source order. -/
def routeReply (s : DeviceState) (code : ℕ) (r : Reply) :
    DeviceState × Effects :=
  if r.op = NetOp.getOp then
    if strContains r.url "stateList" = true then
      if code = 200 then
        let s3 := if s.accepts_commands = false
          then { s with accepts_commands := true } else s
        let s4 := if s3.connection_state = ConnectionState.connecting
          then { s3 with connection_state := ConnectionState.connected }
          else s3
        match r.body with
        | ReplyBody.stateListData he be =>
          (s4, { noEff with publishedHotend := some he,
                            publishedBed := some be })
        | _ => (s4, { noEff with raisedExc := true })
      else if code = 401 then
        ({ s with accepts_commands := false }, noEff)
      else (s, noEff)
    else if strContains r.url "listPrinter" = true then
      if code = 200 then
        match r.body with
        | ReplyBody.printerList recs =>
          (recs.foldl processPrinterRecord s, noEff)
        | _ => (s, { noEff with raisedExc := true })
      else (s, noEff)
    else if strContains r.url "snapshot" = true then
      if code = 200 then
        ({ s with camera_image_empty := false },
         { noEff with imageLoaded := true })
      else (s, noEff)
    else (s, noEff)
  else if r.op = NetOp.postOp then
    if strContains r.url "model" = true then
      -- Result of the upload POST.  The 201 test only logs; the body is
      -- parsed and the copyModel GET issued for any status.
      match r.body with
      | ReplyBody.modelData ids =>
        match ids.getLast? with
        | some modelId =>
          let urlString := s.api_url ++ "?a=copyModel&data=\x7b\"id\": "
            ++ toString modelId ++ "\x7d"
          ({ s with progress_msg := hideMsg s.progress_msg },
           { noEff with issuedGets := [urlString],
                        uploadDisconnected := true,
                        progressHidden := true,
                        savedMsg := s.auto_print = false })
        | none => (s, { noEff with raisedExc := true })
      | _ => (s, { noEff with raisedExc := true })
    else if strContains r.url "job" = true then
      (s, noEff)
    else (s, noEff)
  else (s, noEff)

/-- Handler for all finished requests (onRequestFinished).  Order follows
the source: the timeout-error early return, the restore of the
pre-timeout connection state on a good answer, the last-response-time
update, the empty-reply early return, then the URL-substring dispatch. -/
def onRequestFinished (s : DeviceState) (now : ℚ) (r : Reply) :
    DeviceState × Effects :=
  if r.err = ReplyErr.timeoutError then
    ({ s with
        connection_state_before_timeout := some s.connection_state,
        connection_state := ConnectionState.error }, noEff)
  else
    -- There was a timeout, but we got a correct answer again.
    let s1 :=
      match s.connection_state_before_timeout with
      | some prev =>
        if r.err = ReplyErr.noError then
          { s with connection_state := prev,
                   connection_state_before_timeout := none }
        else s
      | none => s
    let s2 := if r.err = ReplyErr.noError
      then { s1 with last_response_time := some now } else s1
    match r.httpStatus with
    | none => (s2, noEff)
    | some code =>
      if code = 0 then (s2, noEff)
      else routeReply s2 code r

/-- Upload-progress handler (onUploadProgress).  A positive total refreshes
the liveness timestamp and applies the derived percentage only when it
exceeds the current value of the progress message; reaching 100 percent
replaces the Sending message by a fresh Storing message (created with
progress -1); a zero total resets the progress to 0.  The source
dereferences the progress message, which exists whenever this slot is
connected (startPrint created it). -/
def onUploadProgress (s : DeviceState) (now : ℚ)
    (bytesSent bytesTotal : ℕ) : DeviceState :=
  if 0 < bytesTotal then
    let s1 := { s with last_response_time := some now }
    let progress : ℚ := (bytesSent : ℚ) / (bytesTotal : ℚ) * 100
    if progress < 100 then
      match s1.progress_msg with
      | some pm =>
        if progress > pm.progressVal then
          { s1 with progress_msg := some { pm with progressVal := progress } }
        else s1
      | none => s1
    else
      let storingMsg : ProgressMsg := ⟨Indicator.storing, -1, true⟩
      { s1 with progress_msg := some storingMsg }
  else
    match s.progress_msg with
    | some pm =>
      { s with progress_msg := some { pm with progressVal := 0 } }
    | none => s

/-- The close method: publish the empty job state, go to Closed, hide any
progress and error message, stop both timers, clear the camera image. -/
def close (s : DeviceState) : DeviceState :=
  { s with job_state := "",
           connection_state := ConnectionState.closed,
           progress_msg := hideMsg s.progress_msg,
           error_msg_shown := false,
           update_timer_running := false,
           camera_timer_running := false,
           camera_image_empty := true }

/-- The disconnect method logs and delegates to close. -/
def disconnect (s : DeviceState) : DeviceState :=
  close s

/-- The startPrint method.  hasStack tells whether a global container
stack exists (early return otherwise), autoPrintMeta is the
repetier_auto_print metadata entry, jobName the sliced-job name.  When the
job state is neither "ready" nor the empty string the busy error message
is shown and nothing is sent; otherwise the gcode is concatenated, a
Sending progress message is created and the multipart POST issued.  A
missing gcode list makes the loop raise; the generic except branch hides
the progress message. -/
def startPrint (s : DeviceState) (hasStack autoPrintMeta : Bool)
    (jobName : String) : DeviceState × Effects :=
  if hasStack = false then (s, noEff)
  else
    let s1 := { s with auto_print := autoPrintMeta }
    if s1.job_state ≠ "ready" ∧ s1.job_state ≠ "" then
      ({ s1 with error_msg_shown := true }, { noEff with jobBusyMsg := true })
    else
      match s1.gcode with
      | some _ =>
        let fileName := jobName ++ ".gcode"
        ({ s1 with progress_msg := some ⟨Indicator.sending, -1, true⟩,
                   post_reply_active := true,
                   gcode := none },
         { noEff with issuedPosts := [s1.model_url ++ "&name=" ++ fileName] })
      | none =>
        ({ s1 with progress_msg := some ⟨Indicator.sending, -1, false⟩ },
         { noEff with raisedExc := true })

/-- The connect method: with a global container stack present it recreates
the network manager, goes to Connecting, runs one immediate update tick,
starts the poll timer, starts or stops the camera loop, and only then
clears the last response time and revokes command acceptance. -/
def connect (s : DeviceState) (hasStack showCamera networkAccessible : Bool)
    (now : ℚ) : DeviceState × Effects :=
  if hasStack = false then (s, noEff)
  else
    let s1 := { s with connection_state := ConnectionState.connecting }
    let r := update s1 now networkAccessible
    let s2 := { r.1 with update_timer_running := true }
    let s3 := if showCamera = true
      then { s2 with camera_timer_running := true }
      else { s2 with camera_timer_running := false,
                     camera_image_empty := true }
    let s4 := { s3 with last_response_time := none,
                        accepts_commands := false }
    let eff := if showCamera = true
      then { r.2 with recreatedManager := true,
                      issuedGets := r.2.issuedGets ++ [s.camera_url] }
      else { r.2 with recreatedManager := true }
    (s4, eff)

/-- Run a list of update ticks with the network reported accessible,
returning the final state and whether any tick recreated the manager or
showed a timeout or network-lost message. -/
def runTicksOnline : DeviceState → List ℚ → DeviceState × Bool
  | s, [] => (s, false)
  | s, t :: ts =>
    let r := update s t true
    let rest := runTicksOnline r.1 ts
    (rest.1,
     r.2.recreatedManager || r.2.enteredErrorMsg || r.2.networkLostMsg
       || rest.2)

/-- A concrete device, used by the witnesses and counterexamples below. -/
def sampleState : DeviceState := initDevice "10.0.0.5" 3344 "/"

/-- Concrete state for the C1 witness: connected, response 10 seconds old,
request 2 seconds old at tick time 10. -/
def c1State : DeviceState := { sampleState with
  connection_state := ConnectionState.connected,
  last_response_time := some 0,
  last_request_time := some 8 }

/-- Concrete stalled state for the C1 witness: already in timeout. -/
def c1StallState : DeviceState := { sampleState with
  connection_state := ConnectionState.error,
  connection_state_before_timeout := some ConnectionState.connected,
  last_response_time := some 0,
  last_request_time := some 8 }

/-- Concrete stalled state for C2: in timeout since the last response at
time 0, recreate counter still 1. -/
def c2State : DeviceState := { sampleState with
  connection_state := ConnectionState.error,
  connection_state_before_timeout := some ConnectionState.connected,
  last_response_time := some 0 }

/-- Concrete stalled state for C3 with an elevated recreate counter. -/
def c3State : DeviceState := { sampleState with
  connection_state := ConnectionState.error,
  connection_state_before_timeout := some ConnectionState.connected,
  recreate_network_manager_count := 3 }

/-- A good but empty reply (no HTTP status attribute), as used for C3. -/
def c3Reply : Reply :=
  ⟨ReplyErr.noError, none, NetOp.getOp, "", ReplyBody.rawData, false⟩

/-- Concrete state for C4 whose current job state is printing. -/
def c4State : DeviceState := { sampleState with job_state := "printing" }

/-- A listPrinter 200 reply whose array holds no record at all. -/
def c4Reply : Reply :=
  ⟨ReplyErr.noError, some 200, NetOp.getOp,
   "http://10.0.0.5:3344/printer/api/fanera1?a=listPrinter",
   ReplyBody.printerList [], false⟩

/-- The job record of the spec scenario: slug fanera1, job none, not
paused. -/
def c4wRec : PrinterRecord := ⟨"fanera1", "none", "false", 0⟩

/-- A listPrinter 200 reply carrying exactly the scenario record. -/
def c4wReply : Reply :=
  ⟨ReplyErr.noError, some 200, NetOp.getOp,
   "http://10.0.0.5:3344/printer/api/fanera1?a=listPrinter",
   ReplyBody.printerList [c4wRec], false⟩

/-- An upload POST completion with status 201 and one model id 42. -/
def c5Reply : Reply :=
  ⟨ReplyErr.noError, some 201, NetOp.postOp,
   "http://10.0.0.5:3344/printer/model/fanera1?a=upload&name=job.gcode",
   ReplyBody.modelData [42], true⟩

/-- An upload POST completion with the non-success status 400 and one
model id 7. -/
def c6Reply : Reply :=
  ⟨ReplyErr.noError, some 400, NetOp.postOp,
   "http://10.0.0.5:3344/printer/model/fanera1?a=upload&name=job.gcode",
   ReplyBody.modelData [7], false⟩

/-- Concrete state for the C7 witness: a job is printing. -/
def c7State : DeviceState := { sampleState with job_state := "printing" }

/-- Concrete state for the C8 witness: a visible Sending message at
progress 10. -/
def c8State : DeviceState := { sampleState with
  progress_msg := some ⟨Indicator.sending, 10, true⟩ }

/-- The progress message held by c8State. -/
def c8Msg : ProgressMsg := ⟨Indicator.sending, 10, true⟩

/-- Concrete state for C9: connected, both timers running and an upload
POST in flight. -/
def c9State : DeviceState := { sampleState with
  connection_state := ConnectionState.connected,
  post_reply_active := true,
  update_timer_running := true,
  camera_timer_running := true }

theorem skipCount_ge (w d : ℚ) (c : ℕ) : c ≤ skipCount w d c := by
  induction c using skipCount.induct w d with
  | case1 x h ih =>
    rw [skipCount, dif_pos h]
    omega
  | case2 x h =>
    rw [skipCount, dif_neg h]

theorem skipCount_post (w d : ℚ) (c : ℕ) (hw : 0 < w) :
    ¬ (w < d - w * (skipCount w d c)) := by
  induction c using skipCount.induct w d with
  | case1 x h ih =>
    rw [skipCount, dif_pos h]
    exact ih
  | case2 x h =>
    rw [skipCount, dif_neg h]
    intro hlt
    exact h ⟨hw, hlt⟩

theorem processPrinterRecord_preserves (s : DeviceState) (p : PrinterRecord) :
    (processPrinterRecord s p).connection_state_before_timeout
        = s.connection_state_before_timeout
    ∧ (processPrinterRecord s p).recreate_network_manager_count
        = s.recreate_network_manager_count
    ∧ (processPrinterRecord s p).last_response_time = s.last_response_time
    ∧ (processPrinterRecord s p).connection_state = s.connection_state
    ∧ (processPrinterRecord s p).slug = s.slug := by
  unfold processPrinterRecord
  split_ifs <;> exact ⟨rfl, rfl, rfl, rfl, rfl⟩

theorem foldl_processPrinterRecord_preserves (l : List PrinterRecord)
    (s : DeviceState) :
    ((l.foldl processPrinterRecord s).connection_state_before_timeout
        = s.connection_state_before_timeout)
    ∧ ((l.foldl processPrinterRecord s).recreate_network_manager_count
        = s.recreate_network_manager_count)
    ∧ ((l.foldl processPrinterRecord s).last_response_time
        = s.last_response_time)
    ∧ ((l.foldl processPrinterRecord s).connection_state
        = s.connection_state)
    ∧ ((l.foldl processPrinterRecord s).slug = s.slug) := by
  induction l generalizing s with
  | nil => exact ⟨rfl, rfl, rfl, rfl, rfl⟩
  | cons p l ih =>
    have h1 := processPrinterRecord_preserves s p
    have h2 := ih (processPrinterRecord s p)
    simp only [List.foldl_cons]
    obtain ⟨a1, a2, a3, a4, a5⟩ := h1
    obtain ⟨b1, b2, b3, b4, b5⟩ := h2
    exact ⟨b1.trans a1, b2.trans a2, b3.trans a3, b4.trans a4, b5.trans a5⟩

theorem routeReply_preserves (s : DeviceState) (code : ℕ) (r : Reply) :
    (routeReply s code r).1.connection_state_before_timeout
        = s.connection_state_before_timeout
    ∧ (routeReply s code r).1.recreate_network_manager_count
        = s.recreate_network_manager_count
    ∧ (routeReply s code r).1.last_response_time = s.last_response_time := by
  unfold routeReply
  obtain ⟨err, status, op, url, body, loc⟩ := r
  cases body <;> dsimp only <;> split_ifs <;>
    first
      | exact ⟨rfl, rfl, rfl⟩
      | exact ⟨(foldl_processPrinterRecord_preserves _ _).1,
               (foldl_processPrinterRecord_preserves _ _).2.1,
               (foldl_processPrinterRecord_preserves _ _).2.2.1⟩
      | (split <;> exact ⟨rfl, rfl, rfl⟩)

theorem foldl_no_match (l : List PrinterRecord) (s : DeviceState)
    (h : ∀ q ∈ l, q.slug ≠ s.slug) :
    l.foldl processPrinterRecord s = s := by
  induction l with
  | nil => rfl
  | cons q l ih =>
    have hq : processPrinterRecord s q = s := by
      unfold processPrinterRecord
      rw [if_neg]
      intro hc
      exact h q (List.mem_cons_self q l) hc
    simp only [List.foldl_cons, hq]
    exact ih fun q hq2 => h q (List.mem_cons_of_mem _ hq2)

theorem processPrinterRecord_match_fields (s : DeviceState)
    (pr : PrinterRecord) (h : pr.slug = s.slug) :
    (processPrinterRecord s pr).job_name = pr.job
    ∧ (pr.paused = "true" →
        (processPrinterRecord s pr).job_state = "paused")
    ∧ (pr.paused ≠ "true" → pr.job ≠ "none" →
        (processPrinterRecord s pr).job_state = "printing"
        ∧ (processPrinterRecord s pr).progressPct = pr.done)
    ∧ (pr.paused ≠ "true" → pr.job = "none" →
        (processPrinterRecord s pr).job_state = "ready") := by
  unfold processPrinterRecord
  rw [if_pos h]
  split_ifs with h1 h2 h3
  · exact ⟨rfl, fun _ => rfl, fun hA _ => absurd h1 hA,
      fun hA _ => absurd h1 hA⟩
  · exact ⟨rfl, fun hA => absurd hA h1, fun _ _ => ⟨rfl, rfl⟩,
      fun _ hB => absurd hB h2⟩
  · exact ⟨rfl, fun hA => absurd hA h1, fun _ hB => absurd h3 hB,
      fun _ _ => rfl⟩
  · exact absurd (not_not.mp h2) h3

theorem onRequestFinished_listPrinter_shape (s : DeviceState) (now : ℚ)
    (r : Reply) (recs : List PrinterRecord)
    (herr : r.err = ReplyErr.noError) (hop : r.op = NetOp.getOp)
    (hS : strContains r.url "stateList" = false)
    (hL : strContains r.url "listPrinter" = true)
    (h200 : r.httpStatus = some 200)
    (hbody : r.body = ReplyBody.printerList recs) :
    ∃ s2 : DeviceState,
      onRequestFinished s now r = (recs.foldl processPrinterRecord s2, noEff)
      ∧ s2.job_state = s.job_state ∧ s2.job_name = s.job_name
      ∧ s2.progressPct = s.progressPct ∧ s2.slug = s.slug := by
  cases hpre : s.connection_state_before_timeout with
  | none =>
    simp [onRequestFinished, routeReply, herr, hop, hS, hL, h200, hbody, hpre]
    exact ⟨_, rfl, rfl, rfl, rfl, rfl⟩
  | some p =>
    simp [onRequestFinished, routeReply, herr, hop, hS, hL, h200, hbody, hpre]
    exact ⟨_, rfl, rfl, rfl, rfl, rfl⟩

theorem tick_no_response_preserves (s : DeviceState) (t : ℚ)
    (h : s.last_response_time = none) :
    (update s t true).1.connection_state = s.connection_state
    ∧ (update s t true).1.last_response_time = none
    ∧ (update s t true).2.recreatedManager = false
    ∧ (update s t true).2.enteredErrorMsg = false
    ∧ (update s t true).2.networkLostMsg = false := by
  simp only [update, h, Option.isSome_none]
  split_ifs <;> simp_all [noEff]

theorem tick_no_request_keeps_cs (s : DeviceState) (t : ℚ)
    (h : s.last_request_time = none) :
    (update s t true).1.connection_state = s.connection_state := by
  simp only [update, h, Option.isSome_none]
  split_ifs <;> simp_all [noEff]

theorem runTicksOnline_no_response (ts : List ℚ) (s : DeviceState)
    (h : s.last_response_time = none) :
    (runTicksOnline s ts).1.connection_state = s.connection_state
    ∧ (runTicksOnline s ts).1.last_response_time = none
    ∧ (runTicksOnline s ts).2 = false := by
  induction ts generalizing s with
  | nil => exact ⟨rfl, h, rfl⟩
  | cons t ts ih =>
    have h1 := tick_no_response_preserves s t h
    have h2 := ih (update s t true).1 h1.2.1
    simp only [runTicksOnline]
    refine ⟨h2.1.trans h1.1, h2.2.1, ?_⟩
    simp [h1.2.2.1, h1.2.2.2.1, h1.2.2.2.2, h2.2.2]

/-- C1: on a poll tick not already in timeout (no pre-timeout state
recorded), with the network accessible, if the elapsed time since the
last response exceeds the timeout window (5 seconds by default per
initDevice) while the elapsed time since the last request is within the
window, the tick records the current connection state as the pre-timeout
state and enters Error with one lost-connection notice; and on any tick
that already has a pre-timeout state recorded no further notice is shown
and the connection state is left unchanged, so the entry happens at most
once per stall episode. -/
theorem update_timeout_entry_once (s : DeviceState) (now tr tq : ℚ)
    (b : Bool) :
    ((initDevice "10.0.0.5" 3344 "/").response_timeout_time = 5)
    ∧ (s.connection_state_before_timeout = none →
        s.last_response_time = some tr →
        s.last_request_time = some tq →
        now - tr > s.response_timeout_time →
        now - tq ≤ s.response_timeout_time →
        (update s now true).1.connection_state_before_timeout
            = some s.connection_state
          ∧ (update s now true).1.connection_state = ConnectionState.error
          ∧ (update s now true).2.enteredErrorMsg = true)
    ∧ (s.connection_state_before_timeout ≠ none →
        (update s now b).2.enteredErrorMsg = false
          ∧ (update s now b).2.networkLostMsg = false
          ∧ (update s now b).1.connection_state = s.connection_state) := by
  refine ⟨rfl, ?_, ?_⟩
  · intro hpre hlr hlq h1 h2
    simp only [update, hlr, hlq, hpre, reqWithinWindow, Option.isSome_none,
      Option.isSome_some, pollUrls]
    simp [h1, h2]
  · intro hpre
    simp only [update]
    split_ifs <;> simp_all [noEff]

/-- C1 witness: at tick time 10 with the last response at 0 and the last
request at 8, a connected device enters Error and records Connected; a
second tick during the stall shows no further notice and stays in
Error. -/
theorem update_timeout_entry_once_witness :
    ((update c1State 10 true).1.connection_state_before_timeout
        = some ConnectionState.connected
      ∧ (update c1State 10 true).1.connection_state = ConnectionState.error
      ∧ (update c1State 10 true).2.enteredErrorMsg = true)
    ∧ ((update c1StallState 20 true).2.enteredErrorMsg = false
      ∧ (update c1StallState 20 true).1.connection_state
          = ConnectionState.error) := by
  constructor
  · exact (update_timeout_entry_once c1State 10 0 8 true).2.1 rfl rfl rfl
      (by with_unfolding_all decide) (by with_unfolding_all decide)
  · have h := (update_timeout_entry_once c1StallState 20 0 8 true).2.2
      (by with_unfolding_all decide)
    exact ⟨h.1, h.2.2⟩

/-- C2 counterexample: after 16 seconds of silence inside a timeout the
elapsed time exceeds the claimed threshold timeoutWindow times missCount
(5 times 1), yet the tick does not recreate the transport and still
issues its poll requests, because the source compares against the
separate 30 second recreate window. -/
theorem update_recreate_claim_false :
    (16 : ℚ) - 0 >
        c2State.response_timeout_time * c2State.recreate_network_manager_count
    ∧ c2State.connection_state_before_timeout.isSome = true
    ∧ (update c2State 16 true).2.recreatedManager = false
    ∧ (update c2State 16 true).2.issuedGets ≠ [] := by
  with_unfolding_all decide

/-- C2 amended: while recovering from a timeout the recreation threshold
is the recreate window (30 seconds per initDevice, not the 5 second
timeout window) times missCount; when elapsed silence exceeds it the tick
recreates the transport, issues no polls, shows no notice, and advances
missCount past every multiple already elapsed (the new count is larger
and the remaining excess is below one window). -/
theorem update_recreate_threshold (s : DeviceState) (now tr : ℚ)
    (acc : Bool) :
    ((initDevice "10.0.0.5" 3344 "/").recreate_network_manager_time = 30)
    ∧ (s.last_response_time = some tr →
       s.connection_state_before_timeout.isSome = true →
       now - tr >
         s.recreate_network_manager_time * s.recreate_network_manager_count →
       0 < s.recreate_network_manager_time →
       (update s now acc).2.recreatedManager = true
       ∧ (update s now acc).2.issuedGets = []
       ∧ (update s now acc).2.issuedPosts = []
       ∧ (update s now acc).2.enteredErrorMsg = false
       ∧ (update s now acc).1.connection_state = s.connection_state
       ∧ s.recreate_network_manager_count
           < (update s now acc).1.recreate_network_manager_count
       ∧ now - tr - s.recreate_network_manager_time *
           ((update s now acc).1.recreate_network_manager_count : ℚ)
           ≤ s.recreate_network_manager_time) := by
  refine ⟨rfl, ?_⟩
  intro hlr hpre hgt hw
  simp only [update, hlr, Option.isSome_some, noEff]
  rw [if_pos ⟨trivial, hpre, hgt⟩]
  refine ⟨rfl, rfl, rfl, rfl, rfl, ?_, ?_⟩
  · have := skipCount_ge s.recreate_network_manager_time (now - tr)
      (s.recreate_network_manager_count + 1)
    simpa using by omega
  · have := skipCount_post s.recreate_network_manager_time (now - tr)
      (s.recreate_network_manager_count + 1) hw
    simpa using not_lt.mp this

/-- C2 witness: at 31 seconds of silence the recovery tick recreates the
transport, polls nothing, and moves the counter past 1. -/
theorem update_recreate_threshold_witness :
    (update c2State 31 true).2.recreatedManager = true
    ∧ (update c2State 31 true).2.issuedGets = []
    ∧ (update c2State 31 true).2.issuedPosts = []
    ∧ (update c2State 31 true).2.enteredErrorMsg = false
    ∧ (update c2State 31 true).1.connection_state = c2State.connection_state
    ∧ c2State.recreate_network_manager_count
        < (update c2State 31 true).1.recreate_network_manager_count
    ∧ (31 : ℚ) - 0 - c2State.recreate_network_manager_time *
        ((update c2State 31 true).1.recreate_network_manager_count : ℚ)
        ≤ c2State.recreate_network_manager_time :=
  (update_recreate_threshold c2State 31 0 true).2 rfl
    (by with_unfolding_all decide) (by with_unfolding_all decide)
    (by with_unfolding_all decide)

/-- C3 counterexample: a good answer while the pre-timeout state is set
restores the connection state and clears the pre-timeout state, but the
recreate counter (missCount) stays at 3 inside that same handler
invocation instead of being reset to 1. -/
theorem restore_does_not_reset_count :
    c3State.connection_state_before_timeout.isSome = true
    ∧ c3Reply.err = ReplyErr.noError
    ∧ (onRequestFinished c3State 100 c3Reply).1.connection_state
        = ConnectionState.connected
    ∧ (onRequestFinished c3State 100 c3Reply).1.connection_state_before_timeout
        = none
    ∧ (onRequestFinished c3State 100 c3Reply).1.recreate_network_manager_count
        = 3
    ∧ (onRequestFinished c3State 100 c3Reply).1.recreate_network_manager_count
        ≠ 1 := by
  with_unfolding_all decide

/-- C3 amended: on a completion without transport error while the
pre-timeout state is set, the handler clears the pre-timeout state,
records the response time, and restores the connection state (the later
dispatch of a stateList 200 answer may then promote Connecting to
Connected; with no status attribute the restored state is final), but it
leaves missCount untouched; missCount is reset to 1 only by the next poll
tick that runs with the network accessible and no pre-timeout state. -/
theorem restore_clears_timeout (s s2 : DeviceState) (now now2 : ℚ)
    (r : Reply) (p : ConnectionState) :
    (s.connection_state_before_timeout = some p →
     r.err = ReplyErr.noError →
       (onRequestFinished s now r).1.connection_state_before_timeout = none
       ∧ (onRequestFinished s now r).1.recreate_network_manager_count
           = s.recreate_network_manager_count
       ∧ (onRequestFinished s now r).1.last_response_time = some now
       ∧ (r.httpStatus = none →
           (onRequestFinished s now r).1.connection_state = p))
    ∧ (s2.connection_state_before_timeout = none →
        (update s2 now2 true).1.recreate_network_manager_count = 1) := by
  constructor
  · intro hpre herr
    cases hst : r.httpStatus with
    | none => simp [onRequestFinished, hpre, herr, hst]
    | some code =>
      by_cases hc : code = 0
      · simp [onRequestFinished, hpre, herr, hst, hc]
      · simp [onRequestFinished, hpre, herr, hst, hc]
        exact ⟨(routeReply_preserves _ _ _).1,
               (routeReply_preserves _ _ _).2.1,
               (routeReply_preserves _ _ _).2.2⟩
  · intro hpre2
    simp only [update, hpre2, Option.isSome_none]
    rw [if_neg (by simp)]
    rw [if_neg (by simp)]
    split_ifs <;> simp

/-- C3 witness: the concrete restore leaves missCount at 3 while
restoring Connected and clearing the pre-timeout state, and a later poll
tick on a device with no pre-timeout state resets the counter to 1. -/
theorem restore_clears_timeout_witness :
    ((onRequestFinished c3State 100 c3Reply).1.connection_state_before_timeout
        = none
    ∧ (onRequestFinished c3State 100 c3Reply).1.recreate_network_manager_count
        = c3State.recreate_network_manager_count
    ∧ (onRequestFinished c3State 100 c3Reply).1.last_response_time = some 100
    ∧ (onRequestFinished c3State 100 c3Reply).1.connection_state
        = ConnectionState.connected)
    ∧ (update sampleState 5 true).1.recreate_network_manager_count = 1 := by
  have hpre : c3State.connection_state_before_timeout
      = some ConnectionState.connected := by with_unfolding_all decide
  have herr : c3Reply.err = ReplyErr.noError := by with_unfolding_all decide
  have hst : c3Reply.httpStatus = none := by with_unfolding_all decide
  have hpre2 : sampleState.connection_state_before_timeout = none := by
    with_unfolding_all decide
  have h := restore_clears_timeout c3State sampleState 100 5 c3Reply
      ConnectionState.connected
  have h1 := h.1 hpre herr
  exact ⟨⟨h1.1, h1.2.1, h1.2.2.1, h1.2.2.2 hst⟩, h.2 hpre2⟩

/-- C4 counterexample: a job-poll 200 response whose array holds no
record matching the slug leaves the published job state exactly as it
was (here printing); it does not become the claimed Offline. -/
theorem job_poll_absent_not_offline :
    c4Reply.httpStatus = some 200
    ∧ (onRequestFinished c4State 50 c4Reply).1.job_state = "printing"
    ∧ (onRequestFinished c4State 50 c4Reply).1.job_state ≠ "offline" := by
  with_unfolding_all decide

/-- C4 amended: for a job-poll response processed with HTTP 200, a
matching record with paused not true and job other than the sentinel none
yields Printing with the progress taken from done; a matching record with
paused true yields Paused regardless of the job name; a matching record
with job none and paused not true yields Ready; and when no record
matches the slug the previous job state is kept unchanged (nothing is
published), not Offline.  The published job name is the job field of the
matching record. -/
theorem job_poll_state_derivation (s : DeviceState) (now : ℚ) (r : Reply)
    (recs l : List PrinterRecord) (pr : PrinterRecord) :
    r.err = ReplyErr.noError →
    r.op = NetOp.getOp →
    strContains r.url "stateList" = false →
    strContains r.url "listPrinter" = true →
    r.httpStatus = some 200 →
    r.body = ReplyBody.printerList recs →
    ((∀ q ∈ recs, q.slug ≠ s.slug) →
        (onRequestFinished s now r).1.job_state = s.job_state)
    ∧ (recs = l ++ [pr] → pr.slug = s.slug →
        (onRequestFinished s now r).1.job_name = pr.job
        ∧ (pr.paused = "true" →
            (onRequestFinished s now r).1.job_state = "paused")
        ∧ (pr.paused ≠ "true" → pr.job ≠ "none" →
            (onRequestFinished s now r).1.job_state = "printing"
            ∧ (onRequestFinished s now r).1.progressPct = pr.done)
        ∧ (pr.paused ≠ "true" → pr.job = "none" →
            (onRequestFinished s now r).1.job_state = "ready")) := by
  intro herr hop hS hL h200 hbody
  obtain ⟨s2, heq, hjs, hjn, hpp, hslug⟩ :=
    onRequestFinished_listPrinter_shape s now r recs herr hop hS hL h200 hbody
  rw [heq]
  constructor
  · intro hnone
    have : recs.foldl processPrinterRecord s2 = s2 :=
      foldl_no_match recs s2 fun q hq => hslug ▸ hnone q hq
    simp only [this]
    exact hjs
  · intro hrecs hmatch
    subst hrecs
    rw [List.foldl_append]
    set mid := l.foldl processPrinterRecord s2 with hmid
    have hms : mid.slug = s.slug :=
      (foldl_processPrinterRecord_preserves l s2).2.2.2.2.trans hslug
    have hm : pr.slug = mid.slug := hms ▸ hmatch
    have hf := processPrinterRecord_match_fields mid pr hm
    simpa using hf

/-- C4 witness, the spec scenario: the record with slug fanera1, job
none, paused false yields the Ready job state. -/
theorem job_poll_state_derivation_witness :
    (onRequestFinished sampleState 50 c4wReply).1.job_state = "ready" := by
  have h := (job_poll_state_derivation sampleState 50 c4wReply [c4wRec] []
      c4wRec rfl rfl (by with_unfolding_all decide)
      (by with_unfolding_all decide) rfl rfl).2 rfl rfl
  exact h.2.2.2 (by with_unfolding_all decide) rfl

/-- C5: when the upload POST completes with HTTP 201, the handler takes
the id of the last entry of the model list of the response body and the
only request it issues is a GET to the copyModel endpoint carrying
exactly that id; the upload-progress slot is disconnected and the Sending
progress message hidden, leaving the copyModel request as the in-flight
step of the session. -/
theorem upload_success_copies_model (s : DeviceState) (now : ℚ) (r : Reply)
    (ids : List Int) (i : Int) (l : List Int) :
    r.err = ReplyErr.noError →
    r.op = NetOp.postOp →
    strContains r.url "model" = true →
    r.httpStatus = some 201 →
    r.body = ReplyBody.modelData ids →
    ids = l ++ [i] →
    (onRequestFinished s now r).2.issuedGets
        = [s.api_url ++ "?a=copyModel&data=\x7b\"id\": "
            ++ toString i ++ "\x7d"]
    ∧ (onRequestFinished s now r).2.issuedPosts = []
    ∧ (onRequestFinished s now r).2.uploadDisconnected = true
    ∧ (onRequestFinished s now r).2.progressHidden = true
    ∧ (onRequestFinished s now r).1.progress_msg = hideMsg s.progress_msg := by
  intro herr hop hurl h201 hbody hids
  subst hids
  cases hpre : s.connection_state_before_timeout <;>
    simp [onRequestFinished, routeReply, herr, hop, hurl, h201, hbody, hpre,
      List.getLast?_concat, noEff]

/-- C5 witness: a 201 upload completion with body data list id 42 issues
exactly the copyModel GET for id 42. -/
theorem upload_success_copies_model_witness :
    (onRequestFinished sampleState 70 c5Reply).2.issuedGets
        = [sampleState.api_url ++ "?a=copyModel&data=\x7b\"id\": "
            ++ toString (42 : ℤ) ++ "\x7d"]
    ∧ (onRequestFinished sampleState 70 c5Reply).2.issuedPosts = []
    ∧ (onRequestFinished sampleState 70 c5Reply).2.uploadDisconnected = true
    ∧ (onRequestFinished sampleState 70 c5Reply).2.progressHidden = true
    ∧ (onRequestFinished sampleState 70 c5Reply).1.progress_msg
        = hideMsg sampleState.progress_msg :=
  upload_success_copies_model sampleState 70 c5Reply [42] 42 [] rfl rfl
    (by with_unfolding_all decide) rfl rfl rfl

/-- C6 counterexample: an upload POST completion with status 400 (not
201) still issues the copyModel GET for the id found in the body; the
handler does not suppress the follow-up request on failure. -/
theorem upload_failure_claim_false :
    c6Reply.httpStatus = some 400
    ∧ (onRequestFinished sampleState 80 c6Reply).2.issuedGets
        = ["http://10.0.0.5:3344/printer/api/fanera1?a=copyModel&data=\x7b\"id\": 7\x7d"]
    ∧ (onRequestFinished sampleState 80 c6Reply).2.issuedGets ≠ [] := by
  with_unfolding_all decide

/-- C6 amended: when the upload POST completes with any nonzero HTTP
status, success or not, the handler surfaces no error notice (error
handling is an unimplemented TODO in the source) and, whenever the body
parses to a model list, issues the same copyModel GET as on success. -/
theorem upload_any_status_copies_model (s : DeviceState) (now : ℚ)
    (r : Reply) (ids : List Int) (i : Int) (l : List Int) (code : ℕ) :
    r.err = ReplyErr.noError →
    r.op = NetOp.postOp →
    strContains r.url "model" = true →
    r.httpStatus = some code →
    code ≠ 0 →
    r.body = ReplyBody.modelData ids →
    ids = l ++ [i] →
    (onRequestFinished s now r).2.issuedGets
        = [s.api_url ++ "?a=copyModel&data=\x7b\"id\": "
            ++ toString i ++ "\x7d"]
    ∧ (onRequestFinished s now r).2.enteredErrorMsg = false
    ∧ (onRequestFinished s now r).2.networkLostMsg = false
    ∧ (onRequestFinished s now r).2.jobBusyMsg = false
    ∧ (onRequestFinished s now r).2.raisedExc = false := by
  intro herr hop hurl hcode hc0 hbody hids
  subst hids
  cases hpre : s.connection_state_before_timeout <;>
    simp [onRequestFinished, routeReply, herr, hop, hurl, hcode, hc0, hbody,
      hpre, List.getLast?_concat, noEff]

/-- C6 witness: the 400 completion issues the copyModel GET for id 7 and
shows no error notice. -/
theorem upload_any_status_copies_model_witness :
    (onRequestFinished sampleState 80 c6Reply).2.issuedGets
        = [sampleState.api_url ++ "?a=copyModel&data=\x7b\"id\": "
            ++ toString (7 : ℤ) ++ "\x7d"]
    ∧ (onRequestFinished sampleState 80 c6Reply).2.enteredErrorMsg = false
    ∧ (onRequestFinished sampleState 80 c6Reply).2.networkLostMsg = false
    ∧ (onRequestFinished sampleState 80 c6Reply).2.jobBusyMsg = false
    ∧ (onRequestFinished sampleState 80 c6Reply).2.raisedExc = false :=
  upload_any_status_copies_model sampleState 80 c6Reply [7] 7 [] 400 rfl rfl
    (by with_unfolding_all decide) rfl (by decide) rfl rfl

/-- C7: startPrint invoked while the job state is neither ready nor the
empty string shows the busy error notice and issues no request at all,
leaving the connection state, the in-flight upload flag and the job state
unchanged. -/
theorem startPrint_busy_rejects (s : DeviceState) (apm : Bool)
    (jn : String) :
    s.job_state ≠ "ready" → s.job_state ≠ "" →
    (startPrint s true apm jn).2.jobBusyMsg = true
    ∧ (startPrint s true apm jn).2.issuedGets = []
    ∧ (startPrint s true apm jn).2.issuedPosts = []
    ∧ (startPrint s true apm jn).1.connection_state = s.connection_state
    ∧ (startPrint s true apm jn).1.post_reply_active = s.post_reply_active
    ∧ (startPrint s true apm jn).1.job_state = s.job_state := by
  intro h1 h2
  simp [startPrint, h1, h2, noEff]

/-- C7 witness: startPrint during a printing job rejects with the busy
notice and zero requests. -/
theorem startPrint_busy_rejects_witness :
    (startPrint c7State true true "job").2.jobBusyMsg = true
    ∧ (startPrint c7State true true "job").2.issuedGets = []
    ∧ (startPrint c7State true true "job").2.issuedPosts = []
    ∧ (startPrint c7State true true "job").1.connection_state
        = c7State.connection_state
    ∧ (startPrint c7State true true "job").1.post_reply_active
        = c7State.post_reply_active
    ∧ (startPrint c7State true true "job").1.job_state = c7State.job_state :=
  startPrint_busy_rejects c7State true "job"
    (by with_unfolding_all decide) (by with_unfolding_all decide)

/-- C8: upload-progress reporting is monotonic within a session; with a
known total below 100 percent a new value is applied only when it
exceeds the current one (so the reported value never decreases and any
change equals the derived percentage); a zero total resets the progress
to 0; and reaching 100 percent replaces the Sending indicator by the
Storing indicator. -/
theorem upload_progress_monotone (s : DeviceState) (now : ℚ)
    (sent total : ℕ) (pm : ProgressMsg) :
    s.progress_msg = some pm →
    (total = 0 →
        (onUploadProgress s now sent total).progress_msg
          = some ⟨pm.indicator, 0, pm.visible⟩)
    ∧ (0 < total → (sent : ℚ) / (total : ℚ) * 100 < 100 →
        ∃ pm2, (onUploadProgress s now sent total).progress_msg = some pm2
          ∧ pm.progressVal ≤ pm2.progressVal
          ∧ pm2.indicator = pm.indicator
          ∧ pm2.visible = pm.visible
          ∧ (pm.progressVal < pm2.progressVal →
              pm2.progressVal = (sent : ℚ) / (total : ℚ) * 100))
    ∧ (0 < total → 100 ≤ (sent : ℚ) / (total : ℚ) * 100 →
        (onUploadProgress s now sent total).progress_msg
          = some ⟨Indicator.storing, -1, true⟩) := by
  intro hpm
  refine ⟨?_, ?_, ?_⟩
  · intro h0
    subst h0
    simp [onUploadProgress, hpm]
  · intro hpos hlt
    simp only [onUploadProgress]
    rw [if_pos hpos, if_pos hlt]
    simp only [hpm]
    by_cases hgt : (sent : ℚ) / (total : ℚ) * 100 > pm.progressVal
    · rw [if_pos hgt]
      exact ⟨{ pm with progressVal := (sent : ℚ) / (total : ℚ) * 100 },
        rfl, le_of_lt hgt, rfl, rfl, fun _ => rfl⟩
    · rw [if_neg hgt]
      exact ⟨pm, rfl, le_refl _, rfl, rfl,
        fun h => absurd h (lt_irrefl _)⟩
  · intro hpos hge
    simp only [onUploadProgress]
    rw [if_pos hpos, if_neg (not_lt.mpr hge)]

/-- C8 witness: from progress 10, the event 1 of 4 bytes moves the value
up to 25 on the Sending message, and the event 4 of 4 bytes swaps in the
Storing message. -/
theorem upload_progress_monotone_witness :
    (∃ pm2, (onUploadProgress c8State 7 1 4).progress_msg = some pm2
      ∧ c8Msg.progressVal ≤ pm2.progressVal
      ∧ pm2.indicator = c8Msg.indicator
      ∧ pm2.visible = c8Msg.visible
      ∧ (c8Msg.progressVal < pm2.progressVal →
          pm2.progressVal = (1 : ℚ) / (4 : ℚ) * 100))
    ∧ (onUploadProgress c8State 7 4 4).progress_msg
        = some ⟨Indicator.storing, -1, true⟩ := by
  constructor
  · exact (upload_progress_monotone c8State 7 1 4 c8Msg rfl).2.1
      (by decide) (by with_unfolding_all decide)
  · exact (upload_progress_monotone c8State 7 4 4 c8Msg rfl).2.2
      (by decide) (by with_unfolding_all decide)

/-- C9 counterexample: close on a device with an upload POST in flight
transitions to Closed but leaves the upload untouched; neither close nor
disconnect aborts the in-flight transfer. -/
theorem close_does_not_abort_upload :
    c9State.post_reply_active = true
    ∧ (close c9State).post_reply_active = true
    ∧ (close c9State).connection_state = ConnectionState.closed
    ∧ (disconnect c9State).post_reply_active = true := by
  with_unfolding_all decide

/-- C9 amended: disconnect and close stop both periodic timers, hide the
progress and error messages, publish the empty job state and transition
to Closed; both are idempotent and disconnect equals close; but they do
not abort an in-flight upload POST (the in-flight flag is untouched; an
upload is aborted only by the poll tick when the network is
inaccessible). -/
theorem close_stops_timers_goes_closed (s : DeviceState) :
    (close s).connection_state = ConnectionState.closed
    ∧ (close s).update_timer_running = false
    ∧ (close s).camera_timer_running = false
    ∧ (close s).job_state = ""
    ∧ (close s).post_reply_active = s.post_reply_active
    ∧ (close s).progress_msg = hideMsg s.progress_msg
    ∧ (close s).error_msg_shown = false
    ∧ close (close s) = close s
    ∧ disconnect s = close s := by
  refine ⟨rfl, rfl, rfl, rfl, rfl, rfl, rfl, ?_, rfl⟩
  cases hmsg : s.progress_msg <;> simp [close, hideMsg, hmsg]

/-- C10: connect leaves the last response time cleared; as long as no
completion ever arrives (the server stays silent while the network is
reported accessible), every later poll tick leaves the device in
Connecting, never enters Error, never shows a notice and never recreates
the transport, because both the timeout-entry branch and the recreation
branch require a recorded last response time.  The hypothesis that no
request time is recorded holds of every reachable state: the source
never assigns the last request time. -/
theorem no_response_stays_connecting (s : DeviceState) (showCam : Bool)
    (now : ℚ) (ts : List ℚ) :
    s.last_request_time = none →
    (connect s true showCam true now).1.connection_state
        = ConnectionState.connecting
    ∧ (connect s true showCam true now).1.last_response_time = none
    ∧ (runTicksOnline (connect s true showCam true now).1 ts).1.connection_state
        = ConnectionState.connecting
    ∧ (runTicksOnline (connect s true showCam true now).1 ts).2 = false := by
  intro hlq
  have hkeep := tick_no_request_keeps_cs
      { s with connection_state := ConnectionState.connecting } now hlq
  have hcs : (connect s true showCam true now).1.connection_state
      = ConnectionState.connecting := by
    cases showCam <;> simpa [connect] using hkeep
  have hlr : (connect s true showCam true now).1.last_response_time
      = none := by
    cases showCam <;> simp [connect]
  have hrun := runTicksOnline_no_response ts
      (connect s true showCam true now).1 hlr
  exact ⟨hcs, hlr, hrun.1.trans hcs, hrun.2.2⟩

/-- C10 witness: connecting the sample device and ticking at 2, 4 and 6
seconds with the server silent keeps it in Connecting with no recreation
and no notice. -/
theorem no_response_stays_connecting_witness :
    (connect sampleState true false true 0).1.connection_state
        = ConnectionState.connecting
    ∧ (connect sampleState true false true 0).1.last_response_time = none
    ∧ (runTicksOnline (connect sampleState true false true 0).1
        [2, 4, 6]).1.connection_state = ConnectionState.connecting
    ∧ (runTicksOnline (connect sampleState true false true 0).1
        [2, 4, 6]).2 = false :=
  no_response_stays_connecting sampleState false 0 [2, 4, 6] rfl

end RepetierSrv
